import Mathlib

/-!
Verification development for the model LOD streaming/residency engine of
`Source/Engine/Content/Assets/Model.cpp` (Flax Engine). The C++ code is
shallowly embedded: the asset object becomes an explicit `ModelState`
record, byte streams become `List Nat` (one entry per byte), 32-bit
floats are carried as their 4-byte bit patterns (the code never computes
with them during (de)serialization, it only copies their bytes), and the
external serialization collaborators (`MemoryReadStream` /
`MemoryWriteStream`, specified only at their interface boundary in the
design document) are modelled as inverse little-endian byte codecs.
-/

namespace FlaxModel

/-! ## Byte-stream primitives -/

/-- Write `k` bytes of `v`, little-endian (the layout used by the engine's
memory write stream for all fixed-width integers and raw structs). -/
def writeLE : Nat → Nat → List Nat
  | 0, _ => []
  | k + 1, v => v % 256 :: writeLE k (v / 256)

/-- Read `k` little-endian bytes; reading past the end of the stream
yields zero bytes (the C++ stream performs an unchecked copy there, so
behaviour on truncated input is outside any claim). -/
def readLE : Nat → List Nat → Nat × List Nat
  | 0, s => (0, s)
  | _ + 1, [] => (0, [])
  | k + 1, b :: r =>
    let p := readLE k r
    (b + 256 * p.1, p.2)

theorem length_writeLE (k v : Nat) : (writeLE k v).length = k := by
  induction k generalizing v with
  | zero => rfl
  | succ k ih => simp [writeLE, ih]

theorem readLE_succ (k : Nat) (b : Nat) (r : List Nat) :
    readLE (k + 1) (b :: r) = (b + 256 * (readLE k r).1, (readLE k r).2) := rfl

theorem readLE_writeLE (k v : Nat) (r : List Nat) (h : v < 256 ^ k) :
    readLE k (writeLE k v ++ r) = (v, r) := by
  induction k generalizing v with
  | zero =>
    simp only [pow_zero, Nat.lt_one_iff] at h
    subst h
    rfl
  | succ k ih =>
    have hv : v / 256 < 256 ^ k := by
      rw [Nat.div_lt_iff_lt_mul (by norm_num)]
      calc v < 256 ^ (k + 1) := h
        _ = 256 ^ k * 256 := by rw [pow_succ]
    have hstep : writeLE (k + 1) v ++ r = v % 256 :: (writeLE k (v / 256) ++ r) := rfl
    rw [hstep, readLE_succ, ih (v / 256) hv]
    show (v % 256 + 256 * (v / 256), r) = (v, r)
    rw [Nat.mod_add_div]

/-- `WriteInt32`: two's-complement little-endian encoding. -/
def writeInt32 (v : Int) : List Nat := writeLE 4 (v % 4294967296).toNat

/-- `ReadInt32`: two's-complement decode of 4 little-endian bytes. -/
def readInt32 (s : List Nat) : Int × List Nat :=
  let p := readLE 4 s
  (if p.1 < 2147483648 then (p.1 : Int) else (p.1 : Int) - 4294967296, p.2)

theorem readInt32_writeInt32 (v : Int) (r : List Nat)
    (h1 : -2147483648 ≤ v) (h2 : v < 2147483648) :
    readInt32 (writeInt32 v ++ r) = (v, r) := by
  unfold writeInt32 readInt32
  have hmod : 0 ≤ v % 4294967296 := Int.emod_nonneg v (by norm_num)
  have hlt : v % 4294967296 < 4294967296 := Int.emod_lt_of_pos v (by norm_num)
  have hnat : (v % 4294967296).toNat < 256 ^ 4 := by omega
  rw [readLE_writeLE 4 _ r hnat]
  simp only
  have hcast : (((v % 4294967296).toNat : Int)) = v % 4294967296 :=
    Int.toNat_of_nonneg hmod
  split
  · rename_i hsmall
    rw [Prod.mk.injEq]
    refine ⟨?_, rfl⟩
    omega
  · rename_i hbig
    rw [Prod.mk.injEq]
    refine ⟨?_, rfl⟩
    omega

/-- `ReadByte`. -/
def readByteV (s : List Nat) : Nat × List Nat :=
  match s with
  | [] => (0, [])
  | b :: r => (b, r)

/-- `WriteBool` writes a single 0/1 byte. -/
def writeBool (b : Bool) : List Nat := [if b then 1 else 0]

/-- `ReadBool`: any nonzero byte is `true`. -/
def readBoolV (s : List Nat) : Bool × List Nat :=
  let p := readByteV s
  (p.1 != 0, p.2)

theorem readBoolV_writeBool (b : Bool) (r : List Nat) :
    readBoolV (writeBool b ++ r) = (b, r) := by
  cases b <;> rfl

/-- `WriteString(text, 11)`: 32-bit length then each UTF-16 code unit
XORed with the lock value 11 (two bytes per unit). -/
def writeStringLocked (name : List Nat) : List Nat :=
  writeInt32 (name.length : Int) ++ (name.map fun c => writeLE 2 (c ^^^ 11)).flatten

/-- Character loop of `ReadString(&text, 11)`. -/
def readChars : Nat → List Nat → List Nat × List Nat
  | 0, s => ([], s)
  | n + 1, s =>
    let p := readLE 2 s
    let q := readChars n p.2
    ((p.1 ^^^ 11) :: q.1, q.2)

/-- `ReadString(&text, 11)`: 32-bit length then the locked code units. -/
def readStringLocked (s : List Nat) : List Nat × List Nat :=
  let p := readInt32 s
  if p.1 ≤ 0 then ([], p.2) else readChars p.1.toNat p.2

theorem readChars_succ (n : Nat) (s : List Nat) :
    readChars (n + 1) s
      = (((readLE 2 s).1 ^^^ 11) :: (readChars n (readLE 2 s).2).1,
         (readChars n (readLE 2 s).2).2) := rfl

theorem readChars_writeChars (name : List Nat) (r : List Nat)
    (h : ∀ c ∈ name, c < 65536) :
    readChars name.length ((name.map fun c => writeLE 2 (c ^^^ 11)).flatten ++ r)
      = (name, r) := by
  induction name with
  | nil => rfl
  | cons c cs ih =>
    have hc : c < 65536 := h c (List.mem_cons_self c cs)
    have hxor : c ^^^ 11 < 65536 := by
      have h16 : c < 2 ^ 16 := hc
      have h11 : (11 : Nat) < 2 ^ 16 := by norm_num
      exact Nat.xor_lt_two_pow h16 h11
    have hx : c ^^^ 11 < 256 ^ 2 := by omega
    have hesplit : ((c :: cs).map fun x => writeLE 2 (x ^^^ 11)).flatten ++ r
        = writeLE 2 (c ^^^ 11) ++ (((cs.map fun x => writeLE 2 (x ^^^ 11))).flatten ++ r) := by
      rw [List.map_cons, List.flatten_cons, List.append_assoc]
    rw [List.length_cons, hesplit, readChars_succ, readLE_writeLE 2 _ _ hx]
    dsimp only
    rw [ih (fun x hx2 => h x (List.mem_cons_of_mem c hx2))]
    dsimp only
    have hcancel : (c ^^^ 11) ^^^ 11 = c := by
      rw [Nat.xor_assoc, Nat.xor_self, Nat.xor_zero]
    rw [hcancel]

theorem readStringLocked_writeStringLocked (name : List Nat) (r : List Nat)
    (hlen : name.length < 2147483648) (h : ∀ c ∈ name, c < 65536) :
    readStringLocked (writeStringLocked name ++ r) = (name, r) := by
  unfold writeStringLocked readStringLocked
  rw [List.append_assoc,
    readInt32_writeInt32 (name.length : Int) _ (by omega) (by omega)]
  simp only
  by_cases hz : name.length = 0
  · rcases List.eq_nil_of_length_eq_zero hz with rfl
    simp [readChars]
  · have hpos : ¬ ((name.length : Int) ≤ 0) := by omega
    rw [if_neg hpos]
    have htn : (name.length : Int).toNat = name.length := by omega
    rw [htn, readChars_writeChars name r h]

/-! ## Data model

32-bit floats are carried as their bit patterns (a `Nat` below `2 ^ 32`):
the serialization paths under study only ever copy their bytes. -/

structure Float3 where
  x : Nat
  y : Nat
  z : Nat
deriving DecidableEq

structure BoundingBoxV where
  bmin : Float3
  bmax : Float3
deriving DecidableEq

structure BoundingSphereV where
  center : Float3
  radius : Nat
deriving DecidableEq

/-- One entry of `Model::MaterialSlots`; the material reference is a GUID
(16 bytes, carried as one `Nat` below `2 ^ 128`), the shadows-casting mode
an enum stored in a byte on disk, the name a list of UTF-16 code units. -/
structure MaterialSlot where
  material : Nat
  shadowsMode : Nat
  name : List Nat
deriving DecidableEq

/-- One `Mesh`: the header-resident metadata plus the GPU-side counts that
matter to the save path (`GetVertexCount`, `GetTriangleCount`,
`Use16BitIndexBuffer`). -/
structure Mesh where
  materialSlotIndex : Int
  box : BoundingBoxV
  sphere : BoundingSphereV
  hasLightmapUVs : Bool
  vertexCount : Nat
  triangleCount : Nat
  use16BitIndexBuffer : Bool
deriving DecidableEq

/-- One `ModelLOD`: screen size, meshes, and whether its GPU buffers are
currently resident (`Unloaded`/`Loaded` in the design). -/
structure ModelLOD where
  screenSize : Nat
  meshes : List Mesh
  loaded : Bool
deriving DecidableEq

/-- `ModelSDFData`: GPU volume handle (`none` when absent) plus the
transform/metadata fields of the SDF header. -/
structure SDFData where
  texture : Option Nat
  localToUVWMul : Float3
  localToUVWAdd : Float3
  worldUnitsPerVoxel : Nat
  maxDistance : Nat
  localBoundsMin : Float3
  localBoundsMax : Float3
  resolutionScale : Nat
  lod : Int
deriving DecidableEq

/-- The mutable state of one `Model` asset: header fields, LOD ladder,
residency counter `_loadedLODs`, the at-most-one outstanding streaming
task (`some lodIndex` when pending), the SDF, and the two asset chunks the
claims touch (header chunk 0 and SDF chunk 15).  `destroyedTextures`
records every `SAFE_DELETE_GPU_RESOURCE` call; `residencyChangedCount`
counts `ResidencyChanged` notifications; `warnings` counts the warnings
logged by the modelled paths. -/
structure ModelState where
  minScreenSize : Nat
  materialSlots : List MaterialSlot
  lods : List ModelLOD
  loadedLODs : Int
  streamingTask : Option Int
  sdf : SDFData
  chunk0 : Option (List Nat)
  chunk15 : Option (List Nat)
  destroyedTextures : List Nat
  residencyChangedCount : Nat
  warnings : Nat
deriving DecidableEq

/-- Modelled from the spec: `MODEL_MAX_LODS`, the hard maximum on the LOD
count, lives in the engine's graphics configuration header which is not
among the provided sources ("LOD count 0 or over a hard maximum"). -/
def MODEL_MAX_LODS : Nat := 6

/-- Modelled from the spec: `MODEL_MAX_MESHES`, the hard maximum on the
per-LOD mesh count, lives in the engine's graphics configuration header
which is not among the provided sources ("per-LOD mesh count 0 or over a
hard maximum"). -/
def MODEL_MAX_MESHES : Nat := 4096

def defaultMesh : Mesh :=
  { materialSlotIndex := 0
    box := ⟨⟨0, 0, 0⟩, ⟨0, 0, 0⟩⟩
    sphere := ⟨⟨0, 0, 0⟩, 0⟩
    hasLightmapUVs := false
    vertexCount := 0
    triangleCount := 0
    use16BitIndexBuffer := false }

def defaultLOD : ModelLOD := { screenSize := 0, meshes := [], loaded := false }

def defaultSlot : MaterialSlot := { material := 0, shadowsMode := 0, name := [] }

def emptySDF : SDFData :=
  { texture := none
    localToUVWMul := ⟨0, 0, 0⟩
    localToUVWAdd := ⟨0, 0, 0⟩
    worldUnitsPerVoxel := 0
    maxDistance := 0
    localBoundsMin := ⟨0, 0, 0⟩
    localBoundsMax := ⟨0, 0, 0⟩
    resolutionScale := 0
    lod := 0 }

/-- A fresh, empty asset object (state right after construction). -/
def modelEmpty : ModelState :=
  { minScreenSize := 0
    materialSlots := []
    lods := []
    loadedLODs := 0
    streamingTask := none
    sdf := emptySDF
    chunk0 := none
    chunk15 := none
    destroyedTextures := []
    residencyChangedCount := 0
    warnings := 0 }

/-! ## Compound codecs for the header chunk layout -/

def readFloat3 (s : List Nat) : Float3 × List Nat :=
  let px := readLE 4 s
  let py := readLE 4 px.2
  let pz := readLE 4 py.2
  (⟨px.1, py.1, pz.1⟩, pz.2)

def writeFloat3 (v : Float3) : List Nat :=
  writeLE 4 v.x ++ (writeLE 4 v.y ++ writeLE 4 v.z)

def readBoundingBox (s : List Nat) : BoundingBoxV × List Nat :=
  let pmin := readFloat3 s
  let pmax := readFloat3 pmin.2
  (⟨pmin.1, pmax.1⟩, pmax.2)

def writeBoundingBox (b : BoundingBoxV) : List Nat :=
  writeFloat3 b.bmin ++ writeFloat3 b.bmax

def readBoundingSphere (s : List Nat) : BoundingSphereV × List Nat :=
  let pc := readFloat3 s
  let pr := readLE 4 pc.2
  (⟨pc.1, pr.1⟩, pr.2)

def writeBoundingSphere (b : BoundingSphereV) : List Nat :=
  writeFloat3 b.center ++ writeLE 4 b.radius

theorem readFloat3_writeFloat3 (v : Float3) (r : List Nat)
    (hx : v.x < 4294967296) (hy : v.y < 4294967296) (hz : v.z < 4294967296) :
    readFloat3 (writeFloat3 v ++ r) = (v, r) := by
  unfold readFloat3 writeFloat3
  rw [List.append_assoc, readLE_writeLE 4 v.x _ (by norm_num; omega)]
  dsimp only
  rw [List.append_assoc, readLE_writeLE 4 v.y _ (by norm_num; omega)]
  dsimp only
  rw [readLE_writeLE 4 v.z _ (by norm_num; omega)]

theorem readBoundingBox_writeBoundingBox (b : BoundingBoxV) (r : List Nat)
    (h1 : b.bmin.x < 4294967296) (h2 : b.bmin.y < 4294967296)
    (h3 : b.bmin.z < 4294967296) (h4 : b.bmax.x < 4294967296)
    (h5 : b.bmax.y < 4294967296) (h6 : b.bmax.z < 4294967296) :
    readBoundingBox (writeBoundingBox b ++ r) = (b, r) := by
  unfold readBoundingBox writeBoundingBox
  rw [List.append_assoc, readFloat3_writeFloat3 b.bmin _ h1 h2 h3]
  dsimp only
  rw [readFloat3_writeFloat3 b.bmax _ h4 h5 h6]

theorem readBoundingSphere_writeBoundingSphere (b : BoundingSphereV) (r : List Nat)
    (h1 : b.center.x < 4294967296) (h2 : b.center.y < 4294967296)
    (h3 : b.center.z < 4294967296) (h4 : b.radius < 4294967296) :
    readBoundingSphere (writeBoundingSphere b ++ r) = (b, r) := by
  unfold readBoundingSphere writeBoundingSphere
  rw [List.append_assoc, readFloat3_writeFloat3 b.center _ h1 h2 h3]
  dsimp only
  rw [readLE_writeLE 4 b.radius _ (by norm_num; omega)]

/-! ## Save path: header serialization (Model::Save, lines 360-416) -/

/-- Per-slot bytes written by `Model::Save`: GUID, shadows mode byte,
locked string name. -/
def writeSlot (sl : MaterialSlot) : List Nat :=
  writeLE 16 sl.material ++ ([sl.shadowsMode % 256] ++ writeStringLocked sl.name)

/-- Per-mesh header bytes written by `Model::Save`: material slot index,
bounding box, bounding sphere, lightmap-UVs flag. -/
def writeMeshHeader (mesh : Mesh) : List Nat :=
  writeInt32 mesh.materialSlotIndex ++
    (writeBoundingBox mesh.box ++
      (writeBoundingSphere mesh.sphere ++ writeBool mesh.hasLightmapUVs))

/-- Per-LOD header bytes written by `Model::Save`: screen size, mesh count
(`WriteUint16`), then each mesh header. -/
def writeLODHeader (lod : ModelLOD) : List Nat :=
  writeLE 4 lod.screenSize ++
    (writeLE 2 lod.meshes.length ++ (lod.meshes.map writeMeshHeader).flatten)

/-- The whole header chunk produced by `Model::Save`: min screen size,
slot count, slots, LOD count byte, LODs. -/
def Model_Save_header (m : ModelState) : List Nat :=
  writeLE 4 m.minScreenSize ++
    (writeInt32 (m.materialSlots.length : Int) ++
      ((m.materialSlots.map writeSlot).flatten ++
        ([m.lods.length % 256] ++ (m.lods.map writeLODHeader).flatten)))

/-! ## Load path: header deserialization (Model::load, lines 878-966) -/

/-- Slot-table loop of `Model::load` (cannot fail; the stream primitives
are total). -/
def parseSlots : Nat → List Nat → List MaterialSlot × List Nat
  | 0, s => ([], s)
  | n + 1, s =>
    let pg := readLE 16 s
    let psh := readByteV pg.2
    let pn := readStringLocked psh.2
    let q := parseSlots n pn.2
    ({ material := pg.1, shadowsMode := psh.1, name := pn.1 } :: q.1, q.2)

/-- One mesh of the per-LOD mesh loop of `Model::load`.  On an
out-of-range material slot index the loop aborts right after reading the
index (the mesh keeps its default-constructed value). -/
def parseMesh (slotsCount : Int) (s : List Nat) : Bool × Mesh × List Nat :=
  let pidx := readInt32 s
  if pidx.1 < 0 ∨ slotsCount ≤ pidx.1 then (true, defaultMesh, pidx.2)
  else
    let pbox := readBoundingBox pidx.2
    let psph := readBoundingSphere pbox.2
    let plm := readBoolV psph.2
    (false,
      { materialSlotIndex := pidx.1
        box := pbox.1
        sphere := psph.1
        hasLightmapUVs := plm.1
        vertexCount := 0
        triangleCount := 0
        use16BitIndexBuffer := false }, plm.2)

/-- Mesh loop of `Model::load` for one LOD.  `Meshes.Resize(count)` has
already default-constructed all `count` meshes, so an abort at mesh `j`
leaves meshes `j, …, count-1` default-constructed while `0, …, j-1` are
initialized. -/
def parseMeshes (slotsCount : Int) : Nat → List Nat → Bool × List Mesh × List Nat
  | 0, s => (false, [], s)
  | n + 1, s =>
    let p := parseMesh slotsCount s
    if p.1 then (true, List.replicate (n + 1) defaultMesh, p.2.2)
    else
      let q := parseMeshes slotsCount n p.2.2
      (q.1, p.2.1 :: q.2.1, q.2.2)

/-- LOD loop of `Model::load`.  `LODs.Resize(lods)` has already
default-constructed all LODs, so an abort inside LOD `k` leaves LODs
`k+1, …` default-constructed; the aborting LOD has its screen size set
(read before the mesh-count check) and whatever the mesh loop left. -/
def parseLODs (slotsCount : Int) : Nat → List Nat → Bool × List ModelLOD × List Nat
  | 0, s => (false, [], s)
  | n + 1, s =>
    let pss := readLE 4 s
    let pmc := readLE 2 pss.2
    if pmc.1 = 0 ∨ pmc.1 > MODEL_MAX_MESHES then
      (true, { screenSize := pss.1, meshes := [], loaded := false } ::
        List.replicate n defaultLOD, pmc.2)
    else
      let pm := parseMeshes slotsCount pmc.1 pmc.2
      if pm.1 then
        (true, { screenSize := pss.1, meshes := pm.2.1, loaded := false } ::
          List.replicate n defaultLOD, pm.2.2)
      else
        let q := parseLODs slotsCount n pm.2.2
        (q.1, { screenSize := pss.1, meshes := pm.2.1, loaded := false } :: q.2.1,
          q.2.2)

inductive LoadResult where
  | Ok
  | MissingDataChunk
  | InvalidData
  | Failed
deriving DecidableEq

/-- Structural phase of `Model::load` (lines 878-966): header chunk 0 is
parsed into the material slot table and the LOD/mesh arrays, mutating the
asset progressively exactly as the C++ does. -/
def Model_loadHeader (m : ModelState) : LoadResult × ModelState :=
  match m.chunk0 with
  | none => (.MissingDataChunk, m)
  | some bytes =>
    let pmss := readLE 4 bytes
    let m1 : ModelState := { m with minScreenSize := pmss.1 }
    let pslots := readInt32 pmss.2
    if pslots.1 ≤ 0 ∨ pslots.1 > 4096 then (.InvalidData, m1)
    else
      let psl := parseSlots pslots.1.toNat pslots.2
      let m2 : ModelState := { m1 with materialSlots := psl.1 }
      let plods := readByteV psl.2
      if plods.1 = 0 ∨ plods.1 > MODEL_MAX_LODS then (.InvalidData, m2)
      else
        let pl := parseLODs pslots.1 plods.1 plods.2
        let m3 : ModelState := { m2 with lods := pl.2.1 }
        if pl.1 then (.InvalidData, m3) else (.Ok, m3)

/-- Modelled from the spec: the version-1 SDF branch of `Model::load`
reads the raw `ModelSDFHeader` struct (declared in `Model.h`, not among
the provided sources; layout from the spec's on-disk SDF chunk
description), reuses or creates the GPU volume texture (GPU collaborator,
modelled as always succeeding with handle 0 when fresh), and fills the
`SDF` fields; the per-mip upload tasks are external GPU work that touches
no field tracked here. -/
def applySDFv1 (s : List Nat) (m : ModelState) : LoadResult × ModelState :=
  let pw := readLE 4 s
  let ph := readLE 4 pw.2
  let pd := readLE 4 ph.2
  let pfmt := readInt32 pd.2
  let pmul := readFloat3 pfmt.2
  let padd := readFloat3 pmul.2
  let pwupv := readLE 4 padd.2
  let pmaxd := readLE 4 pwupv.2
  let pbmin := readFloat3 pmaxd.2
  let pbmax := readFloat3 pbmin.2
  let pres := readLE 4 pbmax.2
  let pmips := readInt32 pres.2
  let plod := readInt32 pmips.2
  let tex : Option Nat := match m.sdf.texture with
    | some t => some t
    | none => some 0
  (.Ok,
    { m with sdf :=
      { texture := tex
        localToUVWMul := pmul.1
        localToUVWAdd := padd.1
        worldUnitsPerVoxel := pwupv.1
        maxDistance := pmaxd.1
        localBoundsMin := pbmin.1
        localBoundsMax := pbmax.1
        resolutionScale := pres.1
        lod := plod.1 } })

/-- SDF phase of `Model::load` (lines 968-1013): chunk 15, when present,
loaded and SDF support enabled (`EnableModelSDF == 1`), is parsed by
version; version 1 loads the SDF, any other version logs a warning and is
ignored. -/
def loadSDF (enableSDF : Nat) (m : ModelState) : LoadResult × ModelState :=
  match m.chunk15 with
  | some bytes =>
    if enableSDF = 1 then
      let pv := readInt32 bytes
      if pv.1 = 1 then applySDFv1 pv.2 m
      else (.Ok, { m with warnings := m.warnings + 1 })
    else (.Ok, m)
  | none => (.Ok, m)

/-- `Model::load`: structural header phase, then the SDF phase, then
streaming is (re)armed (`StartStreaming`, which touches no state modelled
here). -/
def Model_load (enableSDF : Nat) (m : ModelState) : LoadResult × ModelState :=
  let p := Model_loadHeader m
  match p.1 with
  | .Ok => loadSDF enableSDF p.2
  | res => (res, p.2)

/-! ## Residency operations -/

def Model_GetMaxResidency (m : ModelState) : Int := (m.lods.length : Int)

def Model_GetCurrentResidency (m : ModelState) : Int := m.loadedLODs

/-- Modelled from the spec: `HighestResidentLODIndex` is declared in the
model header (not among the provided sources); the spec defines residency
`N` as LODs `[lods.length - N, lods.length)` resident, so the helper is
`lods.length - residency`. -/
def HighestResidentLODIndex (m : ModelState) : Int :=
  (m.lods.length : Int) - m.loadedLODs

/-- The residency invariant of the design: `0 ≤ residency ≤ lods.length`. -/
def ResidencyInvariant (m : ModelState) : Prop :=
  0 ≤ m.loadedLODs ∧ m.loadedLODs ≤ (m.lods.length : Int)

instance (m : ModelState) : Decidable (ResidencyInvariant m) :=
  inferInstanceAs (Decidable (And _ _))

/-- `ModelLOD::Unload`: release the LOD's GPU buffers. -/
def unloadLOD (l : ModelLOD) : ModelLOD := { l with loaded := false }

/-- Positional map used to model the in-place LOD-array mutation loops. -/
def mapWithIndex (f : Nat → ModelLOD → ModelLOD) : Nat → List ModelLOD → List ModelLOD
  | _, [] => []
  | k, x :: xs => f k x :: mapWithIndex f (k + 1) xs

theorem length_mapWithIndex (f : Nat → ModelLOD → ModelLOD) (k : Nat)
    (l : List ModelLOD) : (mapWithIndex f k l).length = l.length := by
  induction l generalizing k with
  | nil => rfl
  | cons x xs ih => simp [mapWithIndex, ih]

theorem getElem?_mapWithIndex (f : Nat → ModelLOD → ModelLOD) (k : Nat)
    (l : List ModelLOD) (i : Nat) :
    (mapWithIndex f k l)[i]? = (l[i]?).map (f (k + i)) := by
  induction l generalizing k i with
  | nil => simp [mapWithIndex]
  | cons x xs ih =>
    cases i with
    | zero => simp [mapWithIndex]
    | succ j =>
      simp only [mapWithIndex, List.getElem?_cons_succ, ih (k + 1) j]
      have : k + 1 + j = k + (j + 1) := by omega
      rw [this]

/-- `Model::CreateStreamingTask` (lines 831-867).  The caller-side
`ASSERT(IsInitialized() && Math::IsInRange(residency, 0, LODs.Count()) &&
_streamingTask == nullptr)` is a precondition carried by the theorems,
not by the definition.  An upgrade records the pending task and returns
it (`some lodIndex`, standing for the non-null task pointer chain); a
non-positive delta takes the synchronous release path. -/
def Model_CreateStreamingTask (residency : Int) (m : ModelState) :
    ModelState × Option Int :=
  let lodCount : Int := residency - m.loadedLODs
  if 0 < lodCount then
    let lodIndex : Int := HighestResidentLODIndex m - 1
    ({ m with streamingTask := some lodIndex }, some lodIndex)
  else
    let lo : Int := HighestResidentLODIndex m
    let hi : Int := (m.lods.length : Int) - residency
    ({ m with
        lods := mapWithIndex
          (fun i l => if lo ≤ (i : Int) ∧ (i : Int) < hi then unloadLOD l else l)
          0 m.lods
        loadedLODs := residency
        residencyChangedCount := m.residencyChangedCount + 1 }, none)

/-- `StreamModelLODTask::Run` (lines 67-97).  `alive` is whether the weak
asset reference still resolves; `chunkData` the result of `GetLODData`
(`none` = missing chunk); `loadLOD` the external `ModelLOD::Load`
collaborator (defined in the models module, outside the provided
sources), returning the C++ `true`-on-failure flag and the LOD object it
left behind.  Returns the new state and the task's boolean result
(`true` = done/failed without residency change). -/
def StreamModelLODTask_Run (loadLOD : List Nat → ModelLOD → Bool × ModelLOD)
    (alive : Bool) (chunkData : Option (List Nat)) (lodIndex : Nat)
    (m : ModelState) : ModelState × Bool :=
  if alive = false then (m, true)
  else
    match chunkData with
    | none => ({ m with warnings := m.warnings + 1 }, true)
    | some bytes =>
      match m.lods[lodIndex]? with
      | none => (m, true)
      | some lod =>
        let p := loadLOD bytes lod
        let m1 : ModelState := { m with lods := m.lods.set lodIndex p.2 }
        if p.1 then ({ m1 with warnings := m1.warnings + 1 }, true)
        else
          ({ m1 with
              loadedLODs := m1.loadedLODs + 1
              residencyChangedCount := m1.residencyChangedCount + 1 }, false)

/-- `StreamModelLODTask::OnEnd` (lines 99-112): unlink the task from the
asset on every exit path. -/
def StreamModelLODTask_OnEnd (m : ModelState) : ModelState :=
  { m with streamingTask := none }

/-! ## Init / unload -/

/-- Mesh produced by `Mesh::Init(this, lodIndex, meshIndex, 0,
BoundingBox::Zero, BoundingSphere::Empty, true)` in `Model::Init`. -/
def initVirtualMesh : Mesh :=
  { defaultMesh with hasLightmapUVs := true }

/-- LOD loop of `Model::Init` (lines 720-736).  Each LOD gets screen size
1.0f (bit pattern 1065353216) before its mesh count is validated, so the
LOD that fails validation keeps that screen size and its default (empty)
mesh array, and the LODs after it stay default-constructed. -/
def initLODs : List Int → Bool × List ModelLOD
  | [] => (false, [])
  | c :: rest =>
    if c ≤ 0 ∨ c > (MODEL_MAX_MESHES : Int) then
      (true, { screenSize := 1065353216, meshes := [], loaded := false } ::
        List.replicate rest.length defaultLOD)
    else
      let q := initLODs rest
      (q.1, { screenSize := 1065353216
              meshes := List.replicate c.toNat initVirtualMesh
              loaded := false } :: q.2)

/-- `Model::Init(meshesCountPerLod)` (lines 699-743).  Input validation,
then `StopStreaming` (pending task detached), slot table resized to one
(keeping an existing first slot), SDF texture released, LOD array resized
and populated; only when every LOD validates does `_loadedLODs` become
the new LOD count and `ResidencyChanged` fire. -/
def Model_Init (counts : List Int) (m : ModelState) : Bool × ModelState :=
  if counts.length > MODEL_MAX_LODS then (true, m)
  else
    let m1 : ModelState :=
      { m with
          streamingTask := none
          materialSlots := match m.materialSlots with
            | [] => [defaultSlot]
            | a :: _ => [a]
          minScreenSize := 0
          sdf := { m.sdf with texture := none }
          destroyedTextures := m.destroyedTextures ++
            (match m.sdf.texture with | some t => [t] | none => []) }
    let q := initLODs counts
    let m2 : ModelState := { m1 with lods := q.2 }
    if q.1 then (true, m2)
    else
      (false,
        { m2 with
            loadedLODs := (counts.length : Int)
            residencyChangedCount := m2.residencyChangedCount + 1 })

/-- `Model::unload` (lines 1034-1051): cancel any streaming task, release
the SDF texture, clear slots and LODs, reset residency to zero. -/
def Model_unload (m : ModelState) : ModelState :=
  { m with
      streamingTask := none
      sdf := { m.sdf with texture := none }
      destroyedTextures := m.destroyedTextures ++
        (match m.sdf.texture with | some t => [t] | none => [])
      materialSlots := []
      lods := []
      loadedLODs := 0 }

/-! ## SDF operations -/

/-- `Model::SetSDF` (lines 689-697). -/
def Model_SetSDF (sdf : SDFData) (m : ModelState) : ModelState :=
  if m.sdf.texture = sdf.texture then m
  else
    { m with
        destroyedTextures := m.destroyedTextures ++
          (match m.sdf.texture with | some t => [t] | none => [])
        sdf := sdf
        chunk15 := none }

/-- `Math::Clamp` as the engine defines it. -/
def clampFlax (v lo hi : Int) : Int := if v < lo then lo else if v < hi then v else hi

/-- Modelled from the spec for the residency test:
`HasAnyLODInitialized` is declared in the model header (not among the
provided sources); the spec requires "at least one LOD already resident". -/
def HasAnyLODInitialized (m : ModelState) : Bool := 0 < m.loadedLODs

/-- `Model::GenerateSDF` (lines 654-687).  `enableSDF` is the cached
process-wide `EnableModelSDF` byte; `genFails` the result of the external
`ModelTool::GenerateModelSDF` black box, `genOut` the SDF stream it
serialized.  Returns the C++ `true`-on-failure flag, the clamped source
LOD index actually used (when reached), and the updated state (chunk 15
overwritten when caching). -/
def Model_GenerateSDF (enableSDF : Nat) (isMainThread isVirtual genFails : Bool)
    (cacheData hasStorage : Bool) (lodIndexReq : Int) (genOut : List Nat)
    (m : ModelState) : Bool × Option Int × ModelState :=
  if enableSDF = 2 then (true, none, m)
  else if HasAnyLODInitialized m = false then (true, none, m)
  else if isMainThread && isVirtual then (true, none, m)
  else
    let lodIndex := clampFlax lodIndexReq (HighestResidentLODIndex m)
      ((m.lods.length : Int) - 1)
    if genFails then (true, some lodIndex, m)
    else
      (false, some lodIndex,
        if cacheData && hasStorage then { m with chunk15 := some genOut } else m)

/-! ## Material slots -/

/-- Digits of `n` in reverse order as ASCII code units (fuel-driven so it
reduces definitionally). -/
def digitsRevAux : Nat → Nat → List Nat
  | 0, _ => []
  | fuel + 1, n => if n = 0 then [] else (n % 10 + 48) :: digitsRevAux fuel (n / 10)

/-- Display name `String::Format(TEXT("Material {0}"), i + 1)` given to
slots created by `ModelBase::SetupMaterialSlots`, as UTF-16 code units. -/
def materialSlotName (i : Nat) : List Nat :=
  [77, 97, 116, 101, 114, 105, 97, 108, 32] ++ (digitsRevAux (i + 2) (i + 1)).reverse

/-- `ModelBase::SetupMaterialSlots` (lines 1071-1085): bail out when the
`CHECK(slotsCount >= 0 && slotsCount < 4096)` guard fails, otherwise
resize the slot table, naming any newly created slots.  The
`WaitForLoaded` early-return is omitted: the claims concern loaded
assets, for which it never fires. -/
def ModelBase_SetupMaterialSlots (slotsCount : Int) (m : ModelState) : ModelState :=
  if slotsCount < 0 ∨ 4096 ≤ slotsCount then m
  else
    let prevCount := m.materialSlots.length
    let fresh := (List.range' prevCount (slotsCount.toNat - prevCount)).map
      fun i => { defaultSlot with name := materialSlotName i }
    { m with materialSlots := m.materialSlots.take slotsCount.toNat ++ fresh }

/-- `Model::SetupMaterialSlots` (lines 745-759): the base resize, then the
unconditional mesh-index clamp loop. -/
def Model_SetupMaterialSlots (slotsCount : Int) (m : ModelState) : ModelState :=
  let m1 := ModelBase_SetupMaterialSlots slotsCount m
  { m1 with lods := m1.lods.map fun l =>
      { l with meshes := l.meshes.map fun mesh =>
          if mesh.materialSlotIndex ≥ slotsCount then
            { mesh with materialSlotIndex := slotsCount - 1 }
          else mesh } }

/-! ## Save path: index-buffer re-encoding (Model::Save, lines 513-572) -/

/-- Read `n` consecutive `w`-byte little-endian elements. -/
def elemsLE (w : Nat) : Nat → List Nat → List Nat
  | 0, _ => []
  | n + 1, s =>
    let p := readLE w s
    p.1 :: elemsLE w n p.2

/-- Index-buffer bytes `Model::Save` emits for one mesh, after the size
guards have passed.  `shouldUse16BitIndexBuffer = indicesCount ≤
MAX_uint16` is derived from the triangle count; when it agrees with the
mesh's stored flag the downloaded bytes are copied verbatim, when the
count says 16-bit but the flag says 32-bit each `int32` element is
re-written as a `uint16`, and in the remaining case the code hits
`CRASH` (no bytes are produced). -/
def encodeIB (triangleCount : Nat) (use16BitIndexBuffer : Bool) (ib : List Nat) :
    Option (List Nat) :=
  let indicesCount := triangleCount * 3
  let shouldUse16BitIndexBuffer : Bool := indicesCount ≤ 65535
  let ibSize := indicesCount * (if use16BitIndexBuffer then 2 else 4)
  if shouldUse16BitIndexBuffer = use16BitIndexBuffer then some (ib.take ibSize)
  else if shouldUse16BitIndexBuffer then
    some (((elemsLE 4 indicesCount ib).map fun v => writeLE 2 (v % 65536)).flatten)
  else none

theorem length_elemsLE (w n : Nat) (s : List Nat) : (elemsLE w n s).length = n := by
  induction n generalizing s with
  | zero => rfl
  | succ k ih => simp [elemsLE, ih]

theorem elemsLE_succ (w n : Nat) (s : List Nat) :
    elemsLE w (n + 1) s = (readLE w s).1 :: elemsLE w n (readLE w s).2 := rfl

/-- Reading back 16-bit elements written element-by-element recovers each
value truncated to 16 bits. -/
theorem elemsLE2_readback (l : List Nat) :
    elemsLE 2 l.length ((l.map fun v => writeLE 2 (v % 65536)).flatten)
      = l.map (· % 65536) := by
  induction l with
  | nil => rfl
  | cons v vs ih =>
    have hb : v % 65536 < 256 ^ 2 := by omega
    have hsplit : ((v :: vs).map fun x => writeLE 2 (x % 65536)).flatten
        = writeLE 2 (v % 65536) ++ ((vs.map fun x => writeLE 2 (x % 65536)).flatten) := by
      rw [List.map_cons, List.flatten_cons]
    rw [List.length_cons, hsplit, elemsLE_succ]
    rw [readLE_writeLE 2 (v % 65536)
      (((vs.map fun x => writeLE 2 (x % 65536)).flatten)) hb]
    dsimp only
    rw [ih, List.map_cons]

/-! ## Claim C10: SetSDF with an identical texture handle is a no-op -/

/-- C10: if `SetSDF` is called with an `SDFData` whose texture handle
equals the asset's current SDF texture handle, the call is a complete
no-op: no SDF field changes, the existing GPU volume is not destroyed,
and the cached on-disk SDF chunk is not released, even if the other
fields of the argument differ from the stored ones. -/
theorem C10_SetSDF_same_texture_noop (sdf : SDFData) (m : ModelState)
    (h : m.sdf.texture = sdf.texture) : Model_SetSDF sdf m = m := by
  unfold Model_SetSDF
  rw [if_pos h]

def c10model : ModelState :=
  { modelEmpty with
      sdf := { emptySDF with texture := some 7, maxDistance := 5 }
      chunk15 := some [1, 2, 3] }

def c10arg : SDFData := { emptySDF with texture := some 7, maxDistance := 9 }

theorem C10_SetSDF_same_texture_noop_witness :
    c10model.sdf.texture = c10arg.texture ∧
      Model_SetSDF c10arg c10model = c10model :=
  ⟨by decide, C10_SetSDF_same_texture_noop c10arg c10model (by decide)⟩

/-! ## Claim C9: SetupMaterialSlots clamps mesh material-slot indices -/

/-- C9: after every `SetupMaterialSlots(slotsCount)` call, every mesh in
every LOD has a material slot index strictly less than `slotsCount`;
per-position, every mesh whose index was `≥ slotsCount` is re-pointed to
`slotsCount - 1` and every other mesh is unchanged. -/
theorem C9_SetupMaterialSlots_clamps (slotsCount : Int) (m : ModelState) :
    (∀ lod ∈ (Model_SetupMaterialSlots slotsCount m).lods,
        ∀ mesh ∈ lod.meshes, mesh.materialSlotIndex < slotsCount) ∧
    (Model_SetupMaterialSlots slotsCount m).lods.length = m.lods.length ∧
    (∀ i : Nat,
        ((Model_SetupMaterialSlots slotsCount m).lods[i]?).map ModelLOD.meshes
          = (m.lods[i]?).map fun l => l.meshes.map fun mesh =>
              if mesh.materialSlotIndex ≥ slotsCount then
                { mesh with materialSlotIndex := slotsCount - 1 }
              else mesh) := by
  have hbase : (ModelBase_SetupMaterialSlots slotsCount m).lods = m.lods := by
    unfold ModelBase_SetupMaterialSlots
    split
    · rfl
    · rfl
  refine ⟨?_, ?_, ?_⟩
  · intro lod hlod mesh hmesh
    unfold Model_SetupMaterialSlots at hlod
    rw [List.mem_map] at hlod
    obtain ⟨l0, _, hl0⟩ := hlod
    subst hl0
    dsimp only at hmesh
    rw [List.mem_map] at hmesh
    obtain ⟨m0, _, hm0⟩ := hmesh
    subst hm0
    by_cases hge : m0.materialSlotIndex ≥ slotsCount
    · rw [if_pos hge]
      dsimp only
      omega
    · rw [if_neg hge]
      omega
  · unfold Model_SetupMaterialSlots
    dsimp only
    rw [List.length_map, hbase]
  · intro i
    unfold Model_SetupMaterialSlots
    dsimp only
    rw [List.getElem?_map, hbase]
    cases m.lods[i]? with
    | none => rfl
    | some l => rfl

/-! ## Claim C8: GenerateSDF failure conditions and source-LOD clamping -/

/-- C8: `GenerateSDF` returns failure when the SDF feature is disabled
for the process (`EnableModelSDF == 2`), when no LOD is resident, or when
the external generation algorithm fails; before generating it clamps the
requested source LOD index to
`[HighestResidentLODIndex(), lods.length - 1]`. -/
theorem C8_GenerateSDF_failures_and_clamp (enableSDF : Nat)
    (isMainThread isVirtual genFails cacheData hasStorage : Bool)
    (req : Int) (genOut : List Nat) (m : ModelState) :
    (enableSDF = 2 →
      (Model_GenerateSDF enableSDF isMainThread isVirtual genFails cacheData
        hasStorage req genOut m).1 = true) ∧
    (m.loadedLODs ≤ 0 →
      (Model_GenerateSDF enableSDF isMainThread isVirtual genFails cacheData
        hasStorage req genOut m).1 = true) ∧
    (genFails = true →
      (Model_GenerateSDF enableSDF isMainThread isVirtual genFails cacheData
        hasStorage req genOut m).1 = true) ∧
    (enableSDF ≠ 2 → 0 < m.loadedLODs → (isMainThread && isVirtual) = false →
      (Model_GenerateSDF enableSDF isMainThread isVirtual genFails cacheData
          hasStorage req genOut m).2.1
        = some (clampFlax req (HighestResidentLODIndex m)
            ((m.lods.length : Int) - 1)) ∧
      (m.loadedLODs ≤ (m.lods.length : Int) →
        HighestResidentLODIndex m
            ≤ clampFlax req (HighestResidentLODIndex m) ((m.lods.length : Int) - 1) ∧
          clampFlax req (HighestResidentLODIndex m) ((m.lods.length : Int) - 1)
            ≤ (m.lods.length : Int) - 1) ∧
      (HighestResidentLODIndex m ≤ req → req ≤ (m.lods.length : Int) - 1 →
        clampFlax req (HighestResidentLODIndex m) ((m.lods.length : Int) - 1) = req)) ∧
    (enableSDF ≠ 2 → 0 < m.loadedLODs → (isMainThread && isVirtual) = false →
      genFails = false →
      (Model_GenerateSDF enableSDF isMainThread isVirtual genFails cacheData
        hasStorage req genOut m).1 = false) := by
  unfold Model_GenerateSDF HasAnyLODInitialized
  refine ⟨?_, ?_, ?_, ?_, ?_⟩
  · intro h2
    rw [if_pos h2]
  · intro hle
    split
    · rfl
    · rw [if_pos (decide_eq_false (show ¬ 0 < m.loadedLODs by omega))]
  · intro hgf
    subst hgf
    split
    · rfl
    · split
      · rfl
      · split
        · rfl
        · rw [if_pos rfl]
  · intro h2 hpos hmv
    have hdT : decide (0 < m.loadedLODs) = true := decide_eq_true hpos
    rw [if_neg h2, if_neg (by simp [hdT]), if_neg (by simp [hmv])]
    refine ⟨?_, ?_, ?_⟩
    · cases genFails <;> rfl
    · intro hle
      unfold HighestResidentLODIndex clampFlax
      constructor
      · split
        · omega
        · split <;> omega
      · split
        · omega
        · split <;> omega
    · intro hlo hhi
      unfold clampFlax
      split
      · omega
      · split
        · rfl
        · omega
  · intro h2 hpos hmv hgf
    subst hgf
    have hdT : decide (0 < m.loadedLODs) = true := decide_eq_true hpos
    rw [if_neg h2, if_neg (by simp [hdT]), if_neg (by simp [hmv])]
    rfl

def c8model : ModelState :=
  { modelEmpty with
      lods := [defaultLOD, defaultLOD, defaultLOD]
      loadedLODs := 2 }

theorem C8_GenerateSDF_failures_and_clamp_witness :
    (c8model.loadedLODs ≤ 0 → False) ∧
      (Model_GenerateSDF 1 false false false false false 0 [] c8model).2.1
        = some (clampFlax 0 (HighestResidentLODIndex c8model)
            ((c8model.lods.length : Int) - 1)) :=
  ⟨by decide,
    ((C8_GenerateSDF_failures_and_clamp 1 false false false false false 0 []
      c8model).2.2.2.1 (by decide) (by decide) (by decide)).1⟩

/-! ## Claim C7: Save index-buffer re-encoding (corrected) -/

/-- C7 counterexample: a mesh whose stored flag says 16-bit while the
count-derived width is 32-bit (triangle count 21846, so 65538 indices) is
not re-widened element-by-element as the claim states; the save path hits
`CRASH` and produces no bytes. -/
theorem C7_counterexample :
    (21846 * 3 ≤ 65535 → False) ∧ encodeIB 21846 true [] = none := by
  constructor
  · intro h
    omega
  · rfl

/-- C7 (amended): when the count-derived width agrees with the stored
flag the downloaded index bytes are written verbatim; when the count says
16-bit and the flag says 32-bit the indices are narrowed by copying
element-by-element (each 32-bit element truncated to 16 bits), never by
reinterpreting the byte layout; in the remaining disagreement (flag
16-bit, count-derived 32-bit) the code fails hard (`CRASH`) instead of
widening. -/
theorem C7_encodeIB_amended (triangleCount : Nat) (use16 : Bool) (ib : List Nat) :
    ((decide (triangleCount * 3 ≤ 65535)) = use16 →
      encodeIB triangleCount use16 ib
        = some (ib.take (triangleCount * 3 * (if use16 then 2 else 4)))) ∧
    (triangleCount * 3 ≤ 65535 → use16 = false →
      encodeIB triangleCount use16 ib
        = some (((elemsLE 4 (triangleCount * 3) ib).map
            fun v => writeLE 2 (v % 65536)).flatten) ∧
      ∀ out, encodeIB triangleCount use16 ib = some out →
        elemsLE 2 (triangleCount * 3) out
          = (elemsLE 4 (triangleCount * 3) ib).map (· % 65536)) ∧
    (65535 < triangleCount * 3 → use16 = true →
      encodeIB triangleCount use16 ib = none) := by
  refine ⟨?_, ?_, ?_⟩
  · intro hagree
    unfold encodeIB
    rw [if_pos hagree]
  · intro hle hu
    subst hu
    have hdT : decide (triangleCount * 3 ≤ 65535) = true := decide_eq_true hle
    constructor
    · unfold encodeIB
      rw [if_neg (by simp [hdT]), if_pos hdT]
    · intro out hout
      unfold encodeIB at hout
      rw [if_neg (by simp [hdT]), if_pos hdT] at hout
      have hout2 := Option.some.inj hout
      subst hout2
      have hlen : (elemsLE 4 (triangleCount * 3) ib).length = triangleCount * 3 :=
        length_elemsLE 4 (triangleCount * 3) ib
      nth_rewrite 1 [← hlen]
      exact elemsLE2_readback (elemsLE 4 (triangleCount * 3) ib)
  · intro hgt hu
    subst hu
    unfold encodeIB
    have hdF : decide (triangleCount * 3 ≤ 65535) = false :=
      decide_eq_false (by omega)
    rw [if_neg (by simp [hdF]), if_neg (by simp [hdF])]

theorem C7_encodeIB_amended_witness :
    ((decide (2 * 3 ≤ 65535)) = true) ∧
      encodeIB 2 true [1, 0, 2, 0, 3, 0, 4, 0, 5, 0, 6, 0, 9, 9]
        = some [1, 0, 2, 0, 3, 0, 4, 0, 5, 0, 6, 0] :=
  ⟨by decide,
    by
      have h := (C7_encodeIB_amended 2 true
        [1, 0, 2, 0, 3, 0, 4, 0, 5, 0, 6, 0, 9, 9]).1 (by decide)
      rw [h]
      decide⟩

/-! ## Claim C2: upgrade task commits residency only on success -/

/-- C2: for every upgrade streaming task, residency (`_loadedLODs`) is
incremented and the residency-changed notification fires only after the
LOD's buffers are successfully built; when the data chunk is missing or
the LOD payload fails to load, the task ends (returning `true`) with
residency, the notification counter and every other LOD's state equal to
their prior values, logging exactly one warning; and `OnEnd` always
clears the asset's task pointer. -/
theorem C2_stream_task_commit (loadLOD : List Nat → ModelLOD → Bool × ModelLOD)
    (chunkData : Option (List Nat)) (lodIndex : Nat) (m : ModelState)
    (hidx : lodIndex < m.lods.length) :
    (chunkData = none →
      StreamModelLODTask_Run loadLOD true chunkData lodIndex m
        = ({ m with warnings := m.warnings + 1 }, true)) ∧
    (∀ bytes, chunkData = some bytes →
      (loadLOD bytes (m.lods[lodIndex])).1 = true →
      StreamModelLODTask_Run loadLOD true chunkData lodIndex m
        = ({ m with
              lods := m.lods.set lodIndex (loadLOD bytes (m.lods[lodIndex])).2
              warnings := m.warnings + 1 }, true) ∧
      (∀ j, j ≠ lodIndex →
        (StreamModelLODTask_Run loadLOD true chunkData lodIndex m).1.lods[j]?
          = m.lods[j]?)) ∧
    (∀ bytes, chunkData = some bytes →
      (loadLOD bytes (m.lods[lodIndex])).1 = false →
      StreamModelLODTask_Run loadLOD true chunkData lodIndex m
        = ({ m with
              lods := m.lods.set lodIndex (loadLOD bytes (m.lods[lodIndex])).2
              loadedLODs := m.loadedLODs + 1
              residencyChangedCount := m.residencyChangedCount + 1 }, false)) ∧
    ((StreamModelLODTask_Run loadLOD true chunkData lodIndex m).1.loadedLODs
        ≠ m.loadedLODs →
      (StreamModelLODTask_Run loadLOD true chunkData lodIndex m).1.loadedLODs
          = m.loadedLODs + 1 ∧
        (StreamModelLODTask_Run loadLOD true chunkData lodIndex m).1.residencyChangedCount
          = m.residencyChangedCount + 1 ∧
        (StreamModelLODTask_Run loadLOD true chunkData lodIndex m).2 = false) ∧
    (∀ m2 : ModelState,
      StreamModelLODTask_OnEnd m2 = { m2 with streamingTask := none }) := by
  have hget : m.lods[lodIndex]? = some (m.lods[lodIndex]) :=
    List.getElem?_eq_getElem hidx
  refine ⟨?_, ?_, ?_, ?_, ?_⟩
  · intro h
    subst h
    rfl
  · intro bytes h hfail
    subst h
    constructor
    · unfold StreamModelLODTask_Run
      rw [if_neg (by simp), hget]
      dsimp only
      rw [if_pos hfail]
    · intro j hj
      unfold StreamModelLODTask_Run
      rw [if_neg (by simp), hget]
      dsimp only
      rw [if_pos hfail]
      dsimp only
      exact List.getElem?_set_ne (fun hcon => hj hcon.symm)
  · intro bytes h hok
    subst h
    unfold StreamModelLODTask_Run
    rw [if_neg (by simp), hget]
    dsimp only
    rw [if_neg (by rw [hok]; simp)]
  · intro hne
    unfold StreamModelLODTask_Run at hne ⊢
    rw [if_neg (by simp)] at hne ⊢
    cases chunkData with
    | none =>
      dsimp only at hne
      exact absurd rfl hne
    | some bytes =>
      rw [hget] at hne ⊢
      dsimp only at hne ⊢
      by_cases hp : (loadLOD bytes (m.lods[lodIndex])).1 = true
      · rw [if_pos hp] at hne
        dsimp only at hne
        exact absurd rfl hne
      · rw [if_neg hp] at hne ⊢
        exact ⟨rfl, rfl, rfl⟩
  · intro m2
    rfl

def loadLODc2 : List Nat → ModelLOD → Bool × ModelLOD :=
  fun _ l => (false, { l with loaded := true })

def c2model : ModelState := { modelEmpty with lods := [defaultLOD] }

theorem C2_stream_task_commit_witness :
    (StreamModelLODTask_Run loadLODc2 true (some []) 0 c2model).1.loadedLODs
      = c2model.loadedLODs + 1 := by
  have h := ((C2_stream_task_commit loadLODc2 (some []) 0 c2model
    (by decide)).2.2.1) [] rfl rfl
  rw [h]

/-! ## Claim C3: downgrade is synchronous and exact -/

/-- C3: for every valid downgrade request (`target < current`, no task
outstanding), `CreateStreamingTask` synchronously unloads exactly the
resident LODs whose index falls outside the new resident range
`[lods.length - target, lods.length)`, leaves every other LOD untouched,
sets residency to the target, fires one residency-changed notification,
and returns no background task. -/
theorem C3_downgrade_synchronous (target : Int) (m : ModelState)
    (hTask : m.streamingTask = none) (h0 : 0 ≤ target)
    (hlt : target < m.loadedLODs) (hle : m.loadedLODs ≤ (m.lods.length : Int))
    (hres : ∀ i : Fin m.lods.length,
      (m.lods.get i).loaded
        = decide ((m.lods.length : Int) - m.loadedLODs ≤ ((i : Nat) : Int))) :
    (Model_CreateStreamingTask target m).2 = none ∧
    (Model_CreateStreamingTask target m).1.loadedLODs = target ∧
    (Model_CreateStreamingTask target m).1.residencyChangedCount
      = m.residencyChangedCount + 1 ∧
    (Model_CreateStreamingTask target m).1.lods.length = m.lods.length ∧
    (∀ i : Nat, ∀ hi : i < m.lods.length,
      (Model_CreateStreamingTask target m).1.lods[i]?
        = some (if (m.lods.length : Int) - m.loadedLODs ≤ (i : Int) ∧
                    (i : Int) < (m.lods.length : Int) - target
                then unloadLOD (m.lods[i]) else m.lods[i])) ∧
    (∀ i : Nat, ∀ hi : i < m.lods.length,
      ((Model_CreateStreamingTask target m).1.lods[i]?).map ModelLOD.loaded
        = some (decide ((m.lods.length : Int) - target ≤ (i : Int)))) := by
  have hneg : ¬ (0 < target - m.loadedLODs) := by omega
  have hmain : ∀ i : Nat, ∀ hi : i < m.lods.length,
      (Model_CreateStreamingTask target m).1.lods[i]?
        = some (if (m.lods.length : Int) - m.loadedLODs ≤ (i : Int) ∧
                    (i : Int) < (m.lods.length : Int) - target
                then unloadLOD (m.lods[i]) else m.lods[i]) := by
    intro i hi
    unfold Model_CreateStreamingTask
    rw [if_neg hneg]
    dsimp only
    rw [getElem?_mapWithIndex, List.getElem?_eq_getElem hi]
    dsimp only [Option.map]
    rw [Nat.zero_add]
    unfold HighestResidentLODIndex
    rfl
  refine ⟨?_, ?_, ?_, ?_, hmain, ?_⟩
  · unfold Model_CreateStreamingTask
    rw [if_neg hneg]
  · unfold Model_CreateStreamingTask
    rw [if_neg hneg]
  · unfold Model_CreateStreamingTask
    rw [if_neg hneg]
  · unfold Model_CreateStreamingTask
    rw [if_neg hneg]
    dsimp only
    exact length_mapWithIndex _ 0 m.lods
  · intro i hi
    rw [hmain i hi]
    have hload := hres ⟨i, hi⟩
    dsimp only [List.get_eq_getElem] at hload
    dsimp only [Option.map]
    by_cases hcond : ((m.lods.length : Int) - m.loadedLODs ≤ (i : Int) ∧
        (i : Int) < (m.lods.length : Int) - target)
    · rw [if_pos hcond]
      refine congrArg some ?_
      unfold unloadLOD
      dsimp only
      rw [eq_comm, decide_eq_false_iff_not]
      omega
    · rw [if_neg hcond]
      rw [hload]
      rcases not_and_or.mp hcond with hA | hB
      · rw [decide_eq_false (by omega), decide_eq_false (by omega)]
      · rw [decide_eq_true (show (m.lods.length : Int) - m.loadedLODs ≤ (i : Int)
            by omega),
          decide_eq_true (show (m.lods.length : Int) - target ≤ (i : Int) by omega)]

def c3model : ModelState :=
  { modelEmpty with
      lods := [{ defaultLOD with loaded := true }, { defaultLOD with loaded := true },
        { defaultLOD with loaded := true }]
      loadedLODs := 3 }

theorem C3_downgrade_synchronous_witness :
    (Model_CreateStreamingTask 1 c3model).2 = none ∧
      (Model_CreateStreamingTask 1 c3model).1.loadedLODs = 1 := by
  have h := C3_downgrade_synchronous 1 c3model rfl (by decide) (by decide)
    (by decide) (by decide)
  exact ⟨h.1, h.2.1⟩

/-! ## Claim C1: the residency invariant (corrected) -/

theorem initLODs_length (counts : List Int) :
    (initLODs counts).2.length = counts.length := by
  induction counts with
  | nil => rfl
  | cons c rest ih =>
    unfold initLODs
    split
    · simp
    · simp [ih]

theorem initLODs_ok (counts : List Int)
    (h : ∀ c ∈ counts, 0 < c ∧ c ≤ (MODEL_MAX_MESHES : Int)) :
    (initLODs counts).1 = false := by
  induction counts with
  | nil => rfl
  | cons c rest ih =>
    have hc := h c (List.mem_cons_self c rest)
    unfold initLODs
    rw [if_neg (by omega)]
    exact ih fun x hx => h x (List.mem_cons_of_mem c hx)

theorem Model_loadHeader_loadedLODs (m : ModelState) :
    (Model_loadHeader m).2.loadedLODs = m.loadedLODs := by
  unfold Model_loadHeader
  cases m.chunk0 with
  | none => rfl
  | some bytes =>
    dsimp only
    split
    · rfl
    · split
      · rfl
      · split <;> rfl

theorem loadSDF_loadedLODs (e : Nat) (m : ModelState) :
    (loadSDF e m).2.loadedLODs = m.loadedLODs := by
  unfold loadSDF applySDFv1
  cases m.chunk15 with
  | none => rfl
  | some bytes =>
    dsimp only
    split
    · split <;> rfl
    · rfl

theorem Model_load_loadedLODs (e : Nat) (m : ModelState) :
    (Model_load e m).2.loadedLODs = m.loadedLODs := by
  unfold Model_load
  dsimp only
  split
  · rw [loadSDF_loadedLODs]
    exact Model_loadHeader_loadedLODs m
  · exact Model_loadHeader_loadedLODs m

/-- C1 counterexample: starting from a healthy virtual model (three LODs,
residency 3, built by a successful `Init`), an `Init` call whose second
LOD mesh count is invalid fails after the LOD array has already been
resized to 2, leaving residency 3 greater than `lods.length` — the
residency invariant does not survive this failed residency operation, so
the claim as stated is false. -/
theorem C1_counterexample :
    ResidencyInvariant ((Model_Init [1, 1, 1] modelEmpty).2) ∧
      (Model_Init [5, 0] ((Model_Init [1, 1, 1] modelEmpty).2)).1 = true ∧
      ¬ ResidencyInvariant
        ((Model_Init [5, 0] ((Model_Init [1, 1, 1] modelEmpty).2)).2) := by
  decide

/-- C1 (amended): the residency invariant `0 ≤ residency ≤ lods.length`
is preserved by `CreateStreamingTask` (under its asserted precondition),
by the streaming task body (failures unconditionally; success under the
creation-time bound `residency < lods.length`), by `Init` whenever its
per-LOD validation succeeds or its up-front argument validation fails, by
`load` (which runs at residency 0), and by `unload`; and
`GetCurrentResidency` stays within `[0, GetMaxResidency()]` on every
state satisfying the invariant.  The exception forced by the
counterexample: an `Init` that fails inside its per-LOD loop can leave
residency above `lods.length`. -/
theorem C1_residency_invariant (m : ModelState) (hInv : ResidencyInvariant m) :
    (∀ r : Int, 0 ≤ r → r ≤ (m.lods.length : Int) →
        ResidencyInvariant (Model_CreateStreamingTask r m).1) ∧
    (∀ loadLOD alive chunkData lodIndex,
        (StreamModelLODTask_Run loadLOD alive chunkData lodIndex m).2 = true →
        ResidencyInvariant (StreamModelLODTask_Run loadLOD alive chunkData lodIndex m).1) ∧
    (∀ loadLOD alive chunkData lodIndex,
        m.loadedLODs < (m.lods.length : Int) →
        ResidencyInvariant (StreamModelLODTask_Run loadLOD alive chunkData lodIndex m).1) ∧
    (∀ counts : List Int, (∀ c ∈ counts, 0 < c ∧ c ≤ (MODEL_MAX_MESHES : Int)) →
        ResidencyInvariant (Model_Init counts m).2) ∧
    (∀ counts : List Int, MODEL_MAX_LODS < counts.length →
        ResidencyInvariant (Model_Init counts m).2) ∧
    (m.loadedLODs = 0 →
        ∀ enableSDF, ResidencyInvariant (Model_load enableSDF m).2) ∧
    ResidencyInvariant (Model_unload m) ∧
    (0 ≤ Model_GetCurrentResidency m ∧
      Model_GetCurrentResidency m ≤ Model_GetMaxResidency m) := by
  obtain ⟨hlo, hhi⟩ := hInv
  refine ⟨?_, ?_, ?_, ?_, ?_, ?_, ?_, ?_⟩
  · intro r hr0 hrle
    unfold Model_CreateStreamingTask
    dsimp only
    split
    · exact ⟨hlo, hhi⟩
    · refine ⟨hr0, ?_⟩
      dsimp only
      rw [length_mapWithIndex]
      exact hrle
  · intro loadLOD alive chunkData lodIndex hret
    unfold StreamModelLODTask_Run at hret ⊢
    by_cases halive : alive = false
    · rw [if_pos halive]
      exact ⟨hlo, hhi⟩
    · rw [if_neg halive] at hret ⊢
      cases chunkData with
      | none => exact ⟨hlo, hhi⟩
      | some bytes =>
        dsimp only at hret ⊢
        cases hget : m.lods[lodIndex]? with
        | none => exact ⟨hlo, hhi⟩
        | some lod =>
          dsimp only at hret ⊢
          by_cases hp : (loadLOD bytes lod).1 = true
          · rw [if_pos hp]
            refine ⟨hlo, ?_⟩
            dsimp only
            rw [List.length_set]
            exact hhi
          · rw [hget] at hret
            dsimp only at hret
            rw [if_neg hp] at hret
            dsimp only at hret
            exact absurd hret (by simp)
  · intro loadLOD alive chunkData lodIndex hlt
    unfold StreamModelLODTask_Run
    by_cases halive : alive = false
    · rw [if_pos halive]
      exact ⟨hlo, hhi⟩
    · rw [if_neg halive]
      cases chunkData with
      | none => exact ⟨hlo, hhi⟩
      | some bytes =>
        dsimp only
        cases hget : m.lods[lodIndex]? with
        | none => exact ⟨hlo, hhi⟩
        | some lod =>
          dsimp only
          by_cases hp : (loadLOD bytes lod).1 = true
          · rw [if_pos hp]
            refine ⟨hlo, ?_⟩
            dsimp only
            rw [List.length_set]
            exact hhi
          · rw [if_neg hp]
            constructor
            · dsimp only
              omega
            · dsimp only
              rw [List.length_set]
              omega
  · intro counts hcounts
    unfold Model_Init
    dsimp only
    split
    · exact ⟨hlo, hhi⟩
    · rw [if_neg (by rw [initLODs_ok counts hcounts]; simp)]
      constructor
      · dsimp only
        omega
      · dsimp only
        rw [initLODs_length]
  · intro counts hlen
    unfold Model_Init
    dsimp only
    rw [if_pos hlen]
    exact ⟨hlo, hhi⟩
  · intro hz enableSDF
    have h1 := Model_load_loadedLODs enableSDF m
    refine ⟨?_, ?_⟩
    · rw [h1, hz]
    · rw [h1, hz]
      omega
  · refine ⟨le_refl 0, ?_⟩
    unfold Model_unload
    dsimp only
    omega
  · exact ⟨hlo, hhi⟩

theorem C1_residency_invariant_witness :
    ResidencyInvariant (Model_CreateStreamingTask 0 modelEmpty).1 :=
  (C1_residency_invariant modelEmpty (by decide)).1 0 (by decide) (by decide)

/-! ## Header well-formedness and round-trip lemmas -/

/-- Bounds under which a slot name survives the locked-string codec. -/
def WfName (name : List Nat) : Prop :=
  name.length < 2147483648 ∧ ∀ c ∈ name, c < 65536

/-- Bounds on one material slot as held by a loaded asset. -/
def WfSlot (sl : MaterialSlot) : Prop :=
  sl.material < 340282366920938463463374607431768211456 ∧
    sl.shadowsMode < 256 ∧ WfName sl.name

def WfFloat3 (v : Float3) : Prop :=
  v.x < 4294967296 ∧ v.y < 4294967296 ∧ v.z < 4294967296

/-- Bounds on one mesh header entry of a loaded asset: the material slot
index is in range (guaranteed by `Model::load` and clamped by
`SetupMaterialSlots`) and the float bit patterns are 32-bit. -/
def WfMesh (slotsCount : Int) (mesh : Mesh) : Prop :=
  0 ≤ mesh.materialSlotIndex ∧ mesh.materialSlotIndex < slotsCount ∧
    WfFloat3 mesh.box.bmin ∧ WfFloat3 mesh.box.bmax ∧
    WfFloat3 mesh.sphere.center ∧ mesh.sphere.radius < 4294967296

def WfLOD (slotsCount : Int) (lod : ModelLOD) : Prop :=
  lod.screenSize < 4294967296 ∧ 0 < lod.meshes.length ∧
    lod.meshes.length ≤ MODEL_MAX_MESHES ∧
    ∀ mesh ∈ lod.meshes, WfMesh slotsCount mesh

/-- A loaded asset's header data as `Model::load` establishes it (and as
`Model::Save` assumes it). -/
def WfModelHeader (m : ModelState) : Prop :=
  m.minScreenSize < 4294967296 ∧
    0 < m.materialSlots.length ∧ m.materialSlots.length ≤ 4096 ∧
    (∀ sl ∈ m.materialSlots, WfSlot sl) ∧
    0 < m.lods.length ∧ m.lods.length ≤ MODEL_MAX_LODS ∧
    ∀ lod ∈ m.lods, WfLOD (m.materialSlots.length : Int) lod

instance (name : List Nat) : Decidable (WfName name) := by
  unfold WfName
  infer_instance

instance (sl : MaterialSlot) : Decidable (WfSlot sl) := by
  unfold WfSlot
  infer_instance

instance (v : Float3) : Decidable (WfFloat3 v) := by
  unfold WfFloat3
  infer_instance

instance (slotsCount : Int) (mesh : Mesh) : Decidable (WfMesh slotsCount mesh) := by
  unfold WfMesh
  infer_instance

instance (slotsCount : Int) (lod : ModelLOD) : Decidable (WfLOD slotsCount lod) := by
  unfold WfLOD
  infer_instance

instance (m : ModelState) : Decidable (WfModelHeader m) := by
  unfold WfModelHeader
  infer_instance

/-- The mesh `Model::load` reconstructs from a saved mesh header: the
header metadata round-trips, the GPU-side counts start at their
default-constructed values. -/
def headerMesh (mesh : Mesh) : Mesh :=
  { mesh with vertexCount := 0, triangleCount := 0, use16BitIndexBuffer := false }

/-- The LOD `Model::load` reconstructs from a saved LOD header. -/
def headerLOD (lod : ModelLOD) : ModelLOD :=
  { screenSize := lod.screenSize, meshes := lod.meshes.map headerMesh, loaded := false }

theorem parseMesh_writeMeshHeader (slots : Int) (mesh : Mesh) (r : List Nat)
    (hsl : slots ≤ 4096) (h : WfMesh slots mesh) :
    parseMesh slots (writeMeshHeader mesh ++ r) = (false, headerMesh mesh, r) := by
  obtain ⟨hi0, hi1, hb1, hb2, hs1, hs2⟩ := h
  unfold parseMesh writeMeshHeader
  rw [List.append_assoc,
    readInt32_writeInt32 mesh.materialSlotIndex _ (by omega) (by omega)]
  dsimp only
  rw [if_neg (by omega), List.append_assoc]
  rw [readBoundingBox_writeBoundingBox mesh.box _ hb1.1 hb1.2.1 hb1.2.2 hb2.1
    hb2.2.1 hb2.2.2]
  dsimp only
  rw [List.append_assoc,
    readBoundingSphere_writeBoundingSphere mesh.sphere _ hs1.1 hs1.2.1 hs1.2.2 hs2]
  dsimp only
  rw [readBoolV_writeBool]
  rfl

theorem parseMeshes_succ (slots : Int) (k : Nat) (s : List Nat) :
    parseMeshes slots (k + 1) s
      = (if (parseMesh slots s).1 then
          (true, List.replicate (k + 1) defaultMesh, (parseMesh slots s).2.2)
        else
          ((parseMeshes slots k (parseMesh slots s).2.2).1,
            (parseMesh slots s).2.1 :: (parseMeshes slots k (parseMesh slots s).2.2).2.1,
            (parseMeshes slots k (parseMesh slots s).2.2).2.2)) := rfl

theorem parseMeshes_prefix (slots : Int) (hsl : slots ≤ 4096) (pre : List Mesh)
    (hwf : ∀ mesh ∈ pre, WfMesh slots mesh) (n : Nat) (r : List Nat) :
    parseMeshes slots (pre.length + n) ((pre.map writeMeshHeader).flatten ++ r)
      = ((parseMeshes slots n r).1,
         pre.map headerMesh ++ (parseMeshes slots n r).2.1,
         (parseMeshes slots n r).2.2) := by
  induction pre with
  | nil => simp
  | cons mesh rest ih =>
    have hm := hwf mesh (List.mem_cons_self mesh rest)
    have hsplit : ((mesh :: rest).map writeMeshHeader).flatten ++ r
        = writeMeshHeader mesh ++ ((rest.map writeMeshHeader).flatten ++ r) := by
      rw [List.map_cons, List.flatten_cons, List.append_assoc]
    have hlen : (mesh :: rest).length + n = (rest.length + n) + 1 := by
      rw [List.length_cons]
      omega
    rw [hlen, hsplit, parseMeshes_succ,
      parseMesh_writeMeshHeader slots mesh _ hsl hm]
    dsimp only
    rw [if_neg (by simp)]
    rw [ih fun x hx => hwf x (List.mem_cons_of_mem mesh hx)]
    rw [List.map_cons, List.cons_append]

theorem parseMeshes_write (slots : Int) (hsl : slots ≤ 4096) (meshes : List Mesh)
    (hwf : ∀ mesh ∈ meshes, WfMesh slots mesh) (r : List Nat) :
    parseMeshes slots meshes.length ((meshes.map writeMeshHeader).flatten ++ r)
      = (false, meshes.map headerMesh, r) := by
  have h := parseMeshes_prefix slots hsl meshes hwf 0 r
  rw [Nat.add_zero] at h
  rw [h]
  simp [parseMeshes]

theorem parseLODs_succ (slots : Int) (k : Nat) (s : List Nat) :
    parseLODs slots (k + 1) s
      = (if (readLE 2 (readLE 4 s).2).1 = 0 ∨ (readLE 2 (readLE 4 s).2).1 > MODEL_MAX_MESHES then
          (true, { screenSize := (readLE 4 s).1, meshes := [], loaded := false } ::
            List.replicate k defaultLOD, (readLE 2 (readLE 4 s).2).2)
        else
          if (parseMeshes slots (readLE 2 (readLE 4 s).2).1 (readLE 2 (readLE 4 s).2).2).1 then
            (true, { screenSize := (readLE 4 s).1
                     meshes := (parseMeshes slots (readLE 2 (readLE 4 s).2).1
                       (readLE 2 (readLE 4 s).2).2).2.1
                     loaded := false } :: List.replicate k defaultLOD,
              (parseMeshes slots (readLE 2 (readLE 4 s).2).1 (readLE 2 (readLE 4 s).2).2).2.2)
          else
            ((parseLODs slots k (parseMeshes slots (readLE 2 (readLE 4 s).2).1
                (readLE 2 (readLE 4 s).2).2).2.2).1,
              { screenSize := (readLE 4 s).1
                meshes := (parseMeshes slots (readLE 2 (readLE 4 s).2).1
                  (readLE 2 (readLE 4 s).2).2).2.1
                loaded := false } ::
                (parseLODs slots k (parseMeshes slots (readLE 2 (readLE 4 s).2).1
                  (readLE 2 (readLE 4 s).2).2).2.2).2.1,
              (parseLODs slots k (parseMeshes slots (readLE 2 (readLE 4 s).2).1
                (readLE 2 (readLE 4 s).2).2).2.2).2.2)) := rfl

theorem parseLODs_step (slots : Int) (hsl : slots ≤ 4096) (lod : ModelLOD)
    (hwf : WfLOD slots lod) (k : Nat) (r : List Nat) :
    parseLODs slots (k + 1) (writeLODHeader lod ++ r)
      = ((parseLODs slots k r).1, headerLOD lod :: (parseLODs slots k r).2.1,
         (parseLODs slots k r).2.2) := by
  obtain ⟨hss, hms0, hms1, hmswf⟩ := hwf
  have hms1n : lod.meshes.length ≤ 4096 := by
    have h2 : MODEL_MAX_MESHES = 4096 := rfl
    omega
  unfold writeLODHeader
  rw [parseLODs_succ, List.append_assoc,
    readLE_writeLE 4 lod.screenSize _ (by omega)]
  dsimp only
  rw [List.append_assoc, readLE_writeLE 2 lod.meshes.length _ (by omega)]
  dsimp only
  rw [if_neg (by omega)]
  rw [parseMeshes_write slots hsl lod.meshes hmswf r]
  dsimp only
  rw [if_neg (by simp)]
  rfl

theorem parseLODs_prefix (slots : Int) (hsl : slots ≤ 4096) (pre : List ModelLOD)
    (hwf : ∀ lod ∈ pre, WfLOD slots lod) (n : Nat) (r : List Nat) :
    parseLODs slots (pre.length + n) ((pre.map writeLODHeader).flatten ++ r)
      = ((parseLODs slots n r).1,
         pre.map headerLOD ++ (parseLODs slots n r).2.1,
         (parseLODs slots n r).2.2) := by
  induction pre with
  | nil => simp
  | cons lod rest ih =>
    have hl := hwf lod (List.mem_cons_self lod rest)
    have hsplit : ((lod :: rest).map writeLODHeader).flatten ++ r
        = writeLODHeader lod ++ ((rest.map writeLODHeader).flatten ++ r) := by
      rw [List.map_cons, List.flatten_cons, List.append_assoc]
    have hlen : (lod :: rest).length + n = (rest.length + n) + 1 := by
      rw [List.length_cons]
      omega
    rw [hlen, hsplit, parseLODs_step slots hsl lod hl,
      ih fun x hx => hwf x (List.mem_cons_of_mem lod hx)]
    rw [List.map_cons, List.cons_append]

theorem readByteV_cons (b : Nat) (r : List Nat) : readByteV (b :: r) = (b, r) := rfl

theorem parseSlots_succ (k : Nat) (s : List Nat) :
    parseSlots (k + 1) s
      = ({ material := (readLE 16 s).1
           shadowsMode := (readByteV (readLE 16 s).2).1
           name := (readStringLocked (readByteV (readLE 16 s).2).2).1 } ::
          (parseSlots k (readStringLocked (readByteV (readLE 16 s).2).2).2).1,
         (parseSlots k (readStringLocked (readByteV (readLE 16 s).2).2).2).2) := rfl

theorem parseSlots_write (sl : List MaterialSlot)
    (hwf : ∀ s ∈ sl, WfSlot s) (r : List Nat) :
    parseSlots sl.length ((sl.map writeSlot).flatten ++ r) = (sl, r) := by
  induction sl with
  | nil => rfl
  | cons slot rest ih =>
    obtain ⟨hg, hsh, hnm⟩ := hwf slot (List.mem_cons_self slot rest)
    have hsplit : ((slot :: rest).map writeSlot).flatten ++ r
        = writeSlot slot ++ ((rest.map writeSlot).flatten ++ r) := by
      rw [List.map_cons, List.flatten_cons, List.append_assoc]
    have hshmod : slot.shadowsMode % 256 = slot.shadowsMode := Nat.mod_eq_of_lt hsh
    rw [List.length_cons, hsplit]
    rw [show writeSlot slot
        = writeLE 16 slot.material ++
            ([slot.shadowsMode % 256] ++ writeStringLocked slot.name) from rfl]
    rw [parseSlots_succ, List.append_assoc,
      readLE_writeLE 16 slot.material _ (by omega)]
    dsimp only
    rw [List.singleton_append, List.cons_append, readByteV_cons]
    dsimp only
    rw [hshmod, readStringLocked_writeStringLocked slot.name _ hnm.1 hnm.2]
    dsimp only
    rw [ih fun x hx => hwf x (List.mem_cons_of_mem slot hx)]

theorem parseLODs_write (slots : Int) (hsl : slots ≤ 4096) (lods : List ModelLOD)
    (hwf : ∀ lod ∈ lods, WfLOD slots lod) (r : List Nat) :
    parseLODs slots lods.length ((lods.map writeLODHeader).flatten ++ r)
      = (false, lods.map headerLOD, r) := by
  have h := parseLODs_prefix slots hsl lods hwf 0 r
  rw [Nat.add_zero] at h
  rw [h]
  simp [parseLODs]

/-- An `InvalidData` result of the structural phase is the result of the
whole `Model::load`. -/
theorem Model_load_invalid (e : Nat) (base mm : ModelState)
    (h : Model_loadHeader base = (LoadResult.InvalidData, mm)) :
    Model_load e base = (LoadResult.InvalidData, mm) := by
  unfold Model_load
  rw [h]

/-- The structural phase of `Model::load` on a chunk whose min screen
size, slot table and LOD-count byte are valid: it consumes them and hands
the remaining bytes to the LOD loop. -/
theorem Model_loadHeader_reach_lods (base : ModelState) (f : Nat)
    (sl : List MaterialSlot) (L : Nat) (rest : List Nat)
    (hf : f < 4294967296) (hwf : ∀ s ∈ sl, WfSlot s) (h2 : 0 < sl.length)
    (h3 : sl.length ≤ 4096) (hL0 : L ≠ 0) (hLmax : L ≤ MODEL_MAX_LODS)
    (hc : base.chunk0 = some (writeLE 4 f ++ (writeInt32 (sl.length : Int) ++
      ((sl.map writeSlot).flatten ++ ([L] ++ rest))))) :
    Model_loadHeader base
      = if (parseLODs (sl.length : Int) L rest).1
        then (LoadResult.InvalidData,
          { base with
              minScreenSize := f
              materialSlots := sl
              lods := (parseLODs (sl.length : Int) L rest).2.1 })
        else (LoadResult.Ok,
          { base with
              minScreenSize := f
              materialSlots := sl
              lods := (parseLODs (sl.length : Int) L rest).2.1 }) := by
  unfold Model_loadHeader
  rw [hc]
  dsimp only
  rw [readLE_writeLE 4 f _ (by omega)]
  dsimp only
  rw [readInt32_writeInt32 _ _ (by omega) (by omega)]
  dsimp only
  rw [if_neg (by omega)]
  have ht : ((sl.length : Int)).toNat = sl.length := by omega
  rw [ht, parseSlots_write sl hwf _]
  dsimp only
  rw [List.singleton_append, readByteV_cons]
  dsimp only
  rw [if_neg (by omega)]

/-- Round trip of the structural phase: loading the header chunk written
by `Model::Save` from a well-formed asset succeeds and reconstructs the
header data. -/
theorem Model_loadHeader_roundtrip (m base : ModelState) (h : WfModelHeader m)
    (hc : base.chunk0 = some (Model_Save_header m)) :
    Model_loadHeader base
      = (LoadResult.Ok, { base with
          minScreenSize := m.minScreenSize
          materialSlots := m.materialSlots
          lods := m.lods.map headerLOD }) := by
  obtain ⟨h1, h2, h3, h4, h5, h6, h7⟩ := h
  have hml : MODEL_MAX_LODS = 6 := rfl
  have hc2 : base.chunk0
      = some (writeLE 4 m.minScreenSize ++ (writeInt32 (m.materialSlots.length : Int) ++
        ((m.materialSlots.map writeSlot).flatten ++ ([m.lods.length] ++
          (m.lods.map writeLODHeader).flatten)))) := by
    rw [hc]
    unfold Model_Save_header
    rw [Nat.mod_eq_of_lt (show m.lods.length < 256 by omega)]
  have hpl : parseLODs (m.materialSlots.length : Int) m.lods.length
      ((m.lods.map writeLODHeader).flatten) = (false, m.lods.map headerLOD, []) := by
    have hw := parseLODs_write (m.materialSlots.length : Int) (by omega) m.lods h7 []
    rwa [List.append_nil] at hw
  rw [Model_loadHeader_reach_lods base m.minScreenSize m.materialSlots
    m.lods.length ((m.lods.map writeLODHeader).flatten) h1 h4 h2 h3 (by omega)
    (by omega) hc2, hpl]
  dsimp only
  rw [if_neg (by simp)]

/-! ## Claim C5: save/load header round trip -/

/-- C5: serializing a loaded asset's header via `Save` and re-parsing the
produced bytes via `load` succeeds and yields identical minimum screen
size, slot count, per-slot material/name/shadow mode, LOD count, per-LOD
screen size and mesh count, and per-mesh material slot index, bounding
box, bounding sphere and lightmap-UV flag (`headerLOD`/`headerMesh` keep
exactly those fields and reset the GPU-side counts the header does not
carry). -/
theorem C5_save_load_roundtrip (m base : ModelState) (enableSDF : Nat)
    (h : WfModelHeader m)
    (hc : base.chunk0 = some (Model_Save_header m)) (hc15 : base.chunk15 = none) :
    Model_load enableSDF base
      = (LoadResult.Ok,
        { base with
            minScreenSize := m.minScreenSize
            materialSlots := m.materialSlots
            lods := m.lods.map headerLOD }) ∧
    (Model_load enableSDF base).2.minScreenSize = m.minScreenSize ∧
    (Model_load enableSDF base).2.materialSlots = m.materialSlots ∧
    (Model_load enableSDF base).2.lods = m.lods.map headerLOD := by
  have hmain : Model_load enableSDF base
      = (LoadResult.Ok,
        { base with
            minScreenSize := m.minScreenSize
            materialSlots := m.materialSlots
            lods := m.lods.map headerLOD }) := by
    unfold Model_load
    rw [Model_loadHeader_roundtrip m base h hc]
    dsimp only
    unfold loadSDF
    dsimp only
    rw [hc15]
  refine ⟨hmain, ?_, ?_, ?_⟩ <;> rw [hmain]

def c5m : ModelState :=
  { modelEmpty with
      minScreenSize := 1065353216
      materialSlots := [{ material := 12345, shadowsMode := 2, name := [72, 105] }]
      lods := [{ screenSize := 1060000000
                 meshes := [{ materialSlotIndex := 0
                              box := ⟨⟨1, 2, 3⟩, ⟨4, 5, 6⟩⟩
                              sphere := ⟨⟨7, 8, 9⟩, 10⟩
                              hasLightmapUVs := true
                              vertexCount := 77
                              triangleCount := 9
                              use16BitIndexBuffer := true }]
                 loaded := true }] }

def c5base : ModelState := { modelEmpty with chunk0 := some (Model_Save_header c5m) }

theorem C5_save_load_roundtrip_witness :
    (Model_load 2 c5base).1 = LoadResult.Ok ∧
      (Model_load 2 c5base).2.materialSlots = c5m.materialSlots ∧
      (Model_load 2 c5base).2.lods = c5m.lods.map headerLOD := by
  have h := (C5_save_load_roundtrip c5m c5base 2 (by decide) rfl rfl).1
  rw [h]
  exact ⟨rfl, rfl, rfl⟩

/-! ## Claim C6: unknown SDF chunk version is non-fatal -/

theorem Model_loadHeader_chunk15 (m : ModelState) (c : Option (List Nat)) :
    Model_loadHeader { m with chunk15 := c }
      = ((Model_loadHeader m).1, { (Model_loadHeader m).2 with chunk15 := c }) := by
  unfold Model_loadHeader
  dsimp only
  cases hch : m.chunk0 with
  | none =>
    dsimp only
    rw [hch]
  | some bytes =>
    dsimp only
    split
    · rfl
    · split
      · rfl
      · split <;> rfl

theorem Model_loadHeader_sdf (m : ModelState) :
    (Model_loadHeader m).2.sdf = m.sdf := by
  unfold Model_loadHeader
  cases m.chunk0 with
  | none => rfl
  | some bytes =>
    dsimp only
    split
    · rfl
    · split
      · rfl
      · split <;> rfl

/-- C6: for every SDF chunk whose leading version tag is not 1, `load`
logs one warning and ignores the chunk: the result equals the load
without the chunk except for the recorded warning, so the SDF stays unset
(`sdf` unchanged from the asset state, which the structural phase never
touches), residency and every LOD's state are as the structural load
left them, and the whole load still returns `Ok`. -/
theorem C6_sdf_unknown_version (m : ModelState) (v : Int) (r : List Nat)
    (hv : ¬ v = 1) (hlo2 : -2147483648 ≤ v) (hhi2 : v < 2147483648)
    (hok : (Model_loadHeader m).1 = LoadResult.Ok) :
    Model_load 1 { m with chunk15 := some (writeInt32 v ++ r) }
      = (LoadResult.Ok,
        { (Model_loadHeader m).2 with
            chunk15 := some (writeInt32 v ++ r)
            warnings := (Model_loadHeader m).2.warnings + 1 }) ∧
    (Model_loadHeader m).2.sdf = m.sdf ∧
    (Model_loadHeader m).2.loadedLODs = m.loadedLODs := by
  refine ⟨?_, Model_loadHeader_sdf m, Model_loadHeader_loadedLODs m⟩
  unfold Model_load
  rw [Model_loadHeader_chunk15 m (some (writeInt32 v ++ r))]
  dsimp only
  rw [hok]
  dsimp only
  unfold loadSDF
  dsimp only
  rw [if_pos rfl, readInt32_writeInt32 v r hlo2 hhi2]
  dsimp only
  rw [if_neg hv]

def c6base : ModelState := { modelEmpty with chunk0 := some (Model_Save_header c5m) }

theorem C6_sdf_unknown_version_witness :
    Model_load 1 { c6base with chunk15 := some (writeInt32 2 ++ []) }
      = (LoadResult.Ok,
        { (Model_loadHeader c6base).2 with
            chunk15 := some (writeInt32 2 ++ [])
            warnings := (Model_loadHeader c6base).2.warnings + 1 }) :=
  (C6_sdf_unknown_version c6base 2 [] (by decide) (by decide) (by decide)
    (by decide)).1

/-! ## Claim C4: header validation (corrected) -/

def c4bytes : List Nat :=
  writeLE 4 0 ++ (writeInt32 1 ++ (writeSlot defaultSlot ++
    ([2] ++ (writeLE 4 0 ++ writeLE 2 0))))

def c4state : ModelState := { modelEmpty with chunk0 := some c4bytes }

/-- C4 counterexample: a header with one valid slot, a LOD count of 2 and
a first-LOD mesh count of 0 makes `load` return `InvalidData`, but the
LOD array has already been resized to 2 entries (the first with its
screen size read, the second default-constructed) — the failed load does
leave a partially-constructed LOD array, so the claim's final clause is
false. -/
theorem C4_counterexample :
    (Model_load 2 c4state).1 = LoadResult.InvalidData ∧
      (Model_load 2 c4state).2.lods
        = [{ screenSize := 0, meshes := [], loaded := false }, defaultLOD] := by
  decide

/-- C4 (amended): `Model::load` returns the invalid-data outcome whenever
the slot count is `≤ 0` or `> 4096`, the LOD count is 0 or over the hard
maximum, a per-LOD mesh count is 0 or over the hard maximum, or a mesh's
material-slot index is out of the slot table's range.  A slot-count or
LOD-count failure leaves the LOD array untouched, but a mesh-count or
slot-index failure inside the per-LOD loop happens after `LODs.Resize`,
so the asset is left with a partially-constructed LOD array (earlier LODs
populated, the failing and later ones partially default-constructed), as
the conclusions of the last two conjuncts exhibit. -/
theorem C4_load_validation_amended (e : Nat) (base : ModelState) :
    (∀ (f : Nat) (c : Int) (r : List Nat),
      f < 4294967296 → -2147483648 ≤ c → c < 2147483648 → (c ≤ 0 ∨ c > 4096) →
      base.chunk0 = some (writeLE 4 f ++ (writeInt32 c ++ r)) →
      Model_load e base
        = (LoadResult.InvalidData, { base with minScreenSize := f })) ∧
    (∀ (f : Nat) (sl : List MaterialSlot) (L : Nat) (r : List Nat),
      f < 4294967296 → (∀ s ∈ sl, WfSlot s) → 0 < sl.length → sl.length ≤ 4096 →
      (L = 0 ∨ L > MODEL_MAX_LODS) → L < 256 →
      base.chunk0 = some (writeLE 4 f ++ (writeInt32 (sl.length : Int) ++
        ((sl.map writeSlot).flatten ++ ([L] ++ r)))) →
      Model_load e base
        = (LoadResult.InvalidData,
          { base with minScreenSize := f, materialSlots := sl })) ∧
    (∀ (f : Nat) (sl : List MaterialSlot) (preL : List ModelLOD) (k ss mc : Nat)
        (r : List Nat),
      f < 4294967296 → (∀ s ∈ sl, WfSlot s) → 0 < sl.length → sl.length ≤ 4096 →
      (∀ lod ∈ preL, WfLOD (sl.length : Int) lod) →
      preL.length + k + 1 ≤ MODEL_MAX_LODS → ss < 4294967296 → mc < 65536 →
      (mc = 0 ∨ mc > MODEL_MAX_MESHES) →
      base.chunk0 = some (writeLE 4 f ++ (writeInt32 (sl.length : Int) ++
        ((sl.map writeSlot).flatten ++ ([preL.length + k + 1] ++
          ((preL.map writeLODHeader).flatten ++
            (writeLE 4 ss ++ (writeLE 2 mc ++ r))))))) →
      Model_load e base
        = (LoadResult.InvalidData,
          { base with
              minScreenSize := f
              materialSlots := sl
              lods := preL.map headerLOD ++
                ({ screenSize := ss, meshes := [], loaded := false } ::
                  List.replicate k defaultLOD) })) ∧
    (∀ (f : Nat) (sl : List MaterialSlot) (preL : List ModelLOD) (k ss : Nat)
        (preM : List Mesh) (jr : Nat) (idx : Int) (r : List Nat),
      f < 4294967296 → (∀ s ∈ sl, WfSlot s) → 0 < sl.length → sl.length ≤ 4096 →
      (∀ lod ∈ preL, WfLOD (sl.length : Int) lod) →
      preL.length + k + 1 ≤ MODEL_MAX_LODS → ss < 4294967296 →
      (∀ mesh ∈ preM, WfMesh (sl.length : Int) mesh) →
      preM.length + jr + 1 ≤ MODEL_MAX_MESHES →
      -2147483648 ≤ idx → idx < 2147483648 →
      (idx < 0 ∨ (sl.length : Int) ≤ idx) →
      base.chunk0 = some (writeLE 4 f ++ (writeInt32 (sl.length : Int) ++
        ((sl.map writeSlot).flatten ++ ([preL.length + k + 1] ++
          ((preL.map writeLODHeader).flatten ++
            (writeLE 4 ss ++ (writeLE 2 (preM.length + jr + 1) ++
              ((preM.map writeMeshHeader).flatten ++ (writeInt32 idx ++ r))))))))) →
      Model_load e base
        = (LoadResult.InvalidData,
          { base with
              minScreenSize := f
              materialSlots := sl
              lods := preL.map headerLOD ++
                ({ screenSize := ss
                   meshes := preM.map headerMesh ++
                     List.replicate (jr + 1) defaultMesh
                   loaded := false } :: List.replicate k defaultLOD) })) := by
  have hmm : MODEL_MAX_MESHES = 4096 := rfl
  have hml : MODEL_MAX_LODS = 6 := rfl
  refine ⟨?_, ?_, ?_, ?_⟩
  · intro f c r hf hclo hchi hbad hc
    refine Model_load_invalid e base _ ?_
    unfold Model_loadHeader
    rw [hc]
    dsimp only
    rw [readLE_writeLE 4 f _ (by omega)]
    dsimp only
    rw [readInt32_writeInt32 c r hclo hchi]
    dsimp only
    rw [if_pos hbad]
  · intro f sl L r hf hwf h2 h3 hL hL256 hc
    refine Model_load_invalid e base _ ?_
    unfold Model_loadHeader
    rw [hc]
    dsimp only
    rw [readLE_writeLE 4 f _ (by omega)]
    dsimp only
    rw [readInt32_writeInt32 _ _ (by omega) (by omega)]
    dsimp only
    rw [if_neg (by omega)]
    have ht : ((sl.length : Int)).toNat = sl.length := by omega
    rw [ht, parseSlots_write sl hwf _]
    dsimp only
    rw [List.singleton_append, readByteV_cons]
    dsimp only
    rw [if_pos hL]
  · intro f sl preL k ss mc r hf hwf h2 h3 hwfL hL6 hss hmc16 hmcbad hc
    have hq : parseLODs (sl.length : Int) (k + 1)
        (writeLE 4 ss ++ (writeLE 2 mc ++ r))
        = (true, { screenSize := ss, meshes := [], loaded := false } ::
            List.replicate k defaultLOD, r) := by
      rw [parseLODs_succ, readLE_writeLE 4 ss _ (by omega)]
      dsimp only
      rw [readLE_writeLE 2 mc _ (by omega)]
      dsimp only
      rw [if_pos hmcbad]
    have hpl : parseLODs (sl.length : Int) (preL.length + k + 1)
        ((preL.map writeLODHeader).flatten ++
          (writeLE 4 ss ++ (writeLE 2 mc ++ r)))
        = (true, preL.map headerLOD ++
            ({ screenSize := ss, meshes := [], loaded := false } ::
              List.replicate k defaultLOD), r) := by
      have ha : preL.length + k + 1 = preL.length + (k + 1) := by omega
      rw [ha, parseLODs_prefix (sl.length : Int) (by omega) preL hwfL (k + 1) _,
        hq]
    refine Model_load_invalid e base _ ?_
    rw [Model_loadHeader_reach_lods base f sl (preL.length + k + 1) _ hf hwf h2 h3
      (by omega) (by omega) hc, hpl]
    dsimp only
    rw [if_pos rfl]
  · intro f sl preL k ss preM jr idx r hf hwf h2 h3 hwfL hL6 hss hwfM hM4096
      hidxlo hidxhi hidxbad hc
    have hqm : parseMeshes (sl.length : Int) (jr + 1) (writeInt32 idx ++ r)
        = (true, List.replicate (jr + 1) defaultMesh, r) := by
      rw [parseMeshes_succ]
      unfold parseMesh
      rw [readInt32_writeInt32 idx r hidxlo hidxhi]
      dsimp only
      rw [if_pos hidxbad]
      dsimp only
      rw [if_pos rfl]
    have hpm : parseMeshes (sl.length : Int) (preM.length + jr + 1)
        ((preM.map writeMeshHeader).flatten ++ (writeInt32 idx ++ r))
        = (true, preM.map headerMesh ++ List.replicate (jr + 1) defaultMesh, r) := by
      have ha : preM.length + jr + 1 = preM.length + (jr + 1) := by omega
      rw [ha, parseMeshes_prefix (sl.length : Int) (by omega) preM hwfM (jr + 1) _,
        hqm]
    have hq : parseLODs (sl.length : Int) (k + 1)
        (writeLE 4 ss ++ (writeLE 2 (preM.length + jr + 1) ++
          ((preM.map writeMeshHeader).flatten ++ (writeInt32 idx ++ r))))
        = (true, { screenSize := ss
                   meshes := preM.map headerMesh ++
                     List.replicate (jr + 1) defaultMesh
                   loaded := false } :: List.replicate k defaultLOD, r) := by
      rw [parseLODs_succ, readLE_writeLE 4 ss _ (by omega)]
      dsimp only
      rw [readLE_writeLE 2 (preM.length + jr + 1) _ (by omega)]
      dsimp only
      rw [if_neg (by omega), hpm]
      dsimp only
      rw [if_pos rfl]
    have hpl : parseLODs (sl.length : Int) (preL.length + k + 1)
        ((preL.map writeLODHeader).flatten ++
          (writeLE 4 ss ++ (writeLE 2 (preM.length + jr + 1) ++
            ((preM.map writeMeshHeader).flatten ++ (writeInt32 idx ++ r)))))
        = (true, preL.map headerLOD ++
            ({ screenSize := ss
               meshes := preM.map headerMesh ++
                 List.replicate (jr + 1) defaultMesh
               loaded := false } :: List.replicate k defaultLOD), r) := by
      have ha : preL.length + k + 1 = preL.length + (k + 1) := by omega
      rw [ha, parseLODs_prefix (sl.length : Int) (by omega) preL hwfL (k + 1) _,
        hq]
    refine Model_load_invalid e base _ ?_
    rw [Model_loadHeader_reach_lods base f sl (preL.length + k + 1) _ hf hwf h2 h3
      (by omega) (by omega) hc, hpl]
    dsimp only
    rw [if_pos rfl]

def c4wstate : ModelState :=
  { modelEmpty with chunk0 := some (writeLE 4 0 ++ (writeInt32 0 ++ [])) }

theorem C4_load_validation_amended_witness :
    Model_load 2 c4wstate
      = (LoadResult.InvalidData, { c4wstate with minScreenSize := 0 }) :=
  (C4_load_validation_amended 2 c4wstate).1 0 0 [] (by decide) (by decide)
    (by decide) (by decide) rfl

end FlaxModel
